import Mathlib

/-!
Shallow embedding of `src/vsaq_server.py` (the VSAQ test server, Python 2).

Python byte strings are modelled as `List Char`; the filesystem is a record
of regular files (with contents), directory paths, and the directory tree
under `vsaq/` that `os.walk` traverses. Functions keep the names of the
Python functions they embed.
-/

/-- A Python 2 byte string. -/
abbrev PyStr := List Char

/-- `s.startswith(pre)` for Python byte strings. -/
def pyStartswith (s pre : PyStr) : Bool := pre.isPrefixOf s

/-- `s.endswith(suf)` for Python byte strings. -/
def pyEndswith (s suf : PyStr) : Bool := suf.isSuffixOf s

/-- One attempt of the regex `\?.*$` (Python 2 `re`, no flags) at a position
just after a literal `?`: `.` does not match a newline, and `$` matches at
the end of the string or just before a newline that is the final character.
Given the characters after the `?`, returns `some residue` when the regex
matches there, where `residue` is the text after the matched span (empty,
or the single final newline the `$` stepped over). -/
def qTailMatch (l : PyStr) : Option PyStr :=
  match l.dropWhile (fun c => c != '\n') with
  | [] => some []
  | ['\n'] => some ['\n']
  | _ => none

/-- `re.sub(r"\?.*$", "", path)` (line 99): scan left to right; at each `?`
attempt the match; on success drop the matched span and keep the residue
(the residue is empty or a final newline, so it holds no further match); on
failure keep scanning at the next character. -/
def reSubQuery : PyStr → PyStr
  | [] => []
  | c :: rest =>
    if c = '?' then
      match qTailMatch rest with
      | some residue => residue
      | none => c :: reSubQuery rest
    else c :: reSubQuery rest

/-- Directory tree rooted at some directory, as `os.walk` sees it: the files
directly inside, and the named subdirectories in `os.listdir` order. -/
inductive WalkTree where
  | node : List PyStr → List (PyStr × WalkTree) → WalkTree

/-- Filesystem state: the regular files with their byte contents, the set of
directory paths, and the tree under `vsaq/` that `os.walk("vsaq/")`
traverses. -/
structure FS where
  files : List (PyStr × PyStr)
  dirs : List PyStr
  tree : WalkTree

/-- `os.path.isfile`. -/
def os_isfile (fs : FS) (p : PyStr) : Bool := (fs.files.lookup p).isSome

/-- `os.path.exists` (true for regular files and for directories). -/
def os_exists (fs : FS) (p : PyStr) : Bool := os_isfile fs p || fs.dirs.contains p

/-- `open(p, "wb")` followed by writing `c`: (re)creates the regular file. -/
def fsWrite (fs : FS) (p c : PyStr) : FS := { fs with files := (p, c) :: fs.files }

/-- Contents of the regular file at `p`, if any. -/
def fsRead (fs : FS) (p : PyStr) : Option PyStr := fs.files.lookup p

/-- `os.path.join(a, b)` (posixpath, two arguments). -/
def os_path_join (a b : PyStr) : PyStr :=
  if pyStartswith b ['/'] then b
  else if a.isEmpty || pyEndswith a ['/'] then a ++ b
  else a ++ '/' :: b

mutual

/-- `os.walk(top)` (top-down): the visited `(root, filenames)` pairs in
traversal order. The `dirnames` component of each triple is unused by the
server (`for root, _, files in os.walk(...)`) and is omitted. -/
def os_walk (root : PyStr) : WalkTree → List (PyStr × List PyStr)
  | .node fl subs => (root, fl) :: os_walkForest root subs

/-- The recursive descent of `os.walk` into the subdirectories, in listing
order; each subdirectory named `d` is visited under `os.path.join(root, d)`. -/
def os_walkForest (root : PyStr) : List (PyStr × WalkTree) → List (PyStr × List PyStr)
  | [] => []
  | (d, t) :: rest => os_walk (os_path_join root d) t ++ os_walkForest root rest

end

/-- Line 34: the fixed dependency manifest path. -/
def DEPS_FILE : PyStr := "build/deps-runfiles.js".data

/-- Line 35: the generated all-tests manifest path. -/
def ALL_JSTESTS_FILE : PyStr := "build/all_tests.js".data

/-- `fnmatch.filter(files, "*test_dom.html")` membership test (line 59): on
POSIX (`os.path.normcase` is the identity) the pattern `*test_dom.html`
matches exactly the names ending in `test_dom.html`, because `*` matches any
run of characters and every remaining pattern character is a literal. -/
def fnmatchTestDom (f : PyStr) : Bool := pyEndswith f "test_dom.html".data

/-- `TestServerRequestHandler.get_test_files` (lines 56..61): walk `vsaq/`,
and for each visited root collect `os.path.join(root, f)` for every file `f`
matching `*test_dom.html`, in walk order. -/
def get_test_files (fs : FS) : List PyStr :=
  (os_walk "vsaq/".data fs.tree).flatMap
    (fun rf => (rf.2.filter fnmatchTestDom).map (os_path_join rf.1))

/-- The byte 0x5c, backslash. -/
def backslashChar : Char := Char.ofNat 92

/-- The byte 0x27, single quote. -/
def squoteChar : Char := Char.ofNat 39

/-- The byte 0x22, double quote. -/
def dquoteChar : Char := Char.ofNat 34

/-- Lowercase hex digit for `n < 16`. -/
def hexDigitChar (n : Nat) : Char :=
  if n < 10 then Char.ofNat (48 + n) else Char.ofNat (87 + n)

/-- Python 2 `repr` escape of one byte of a `str`, given the chosen quote
(CPython `string_repr`): escape the quote and backslash, then tab, newline,
carriage return, then any byte outside 32..126 as `\xhh`, else the byte. -/
def pyReprChar (q c : Char) : PyStr :=
  if c = q || c = backslashChar then [backslashChar, c]
  else if c = '\t' then [backslashChar, 't']
  else if c = '\n' then [backslashChar, 'n']
  else if c = '\r' then [backslashChar, 'r']
  else if c.toNat < 32 || 127 ≤ c.toNat then
    [backslashChar, 'x', hexDigitChar (c.toNat / 16 % 16), hexDigitChar (c.toNat % 16)]
  else [c]

/-- The quote Python 2 `repr` picks for a `str`: a double quote when the
string holds a single quote and no double quote, else a single quote. -/
def pyReprQuote (s : PyStr) : Char :=
  if s.contains squoteChar && !(s.contains dquoteChar) then dquoteChar else squoteChar

/-- Python 2 `repr` of a `str`: the chosen quote, the body escaped bytewise
by `pyReprChar`, the closing quote. -/
def pyReprStr (s : PyStr) : PyStr :=
  pyReprQuote s :: s.flatMap (pyReprChar (pyReprQuote s)) ++ [pyReprQuote s]

/-- Python 2 `repr` of a list of strings: `[` then the item reprs joined by
a comma and a space, then `]`. -/
def pyReprStrList (l : List PyStr) : PyStr :=
  '[' :: List.intercalate ", ".data (l.map pyReprStr) ++ [']']

/-- The bytes that `generate_all_tests_file` writes (lines 66..69):
`"var _allTests=" + repr(self.get_test_files()) + ";"`. -/
def manifestContent (fs : FS) : PyStr :=
  "var _allTests=".data ++ pyReprStrList (get_test_files fs) ++ ";".data

/-- `TestServerRequestHandler.generate_all_tests_file` (lines 63..69). -/
def generate_all_tests_file (fs : FS) : FS :=
  if os_exists fs ALL_JSTESTS_FILE then fs
  else fsWrite fs ALL_JSTESTS_FILE (manifestContent fs)

/-- `TestServerRequestHandler.DIRECTORY_MAP`, in the order in which the
program iterates it. The source declares it as a Python 2 dict literal
(lines 41..54); `dict.items()` yields the entries in hash-table slot order,
which for these eight string keys under CPython 2.7 (64-bit build, default
settings, hash randomization off) is the fixed order below, not the
declaration order: `BUILD_MAP(8)` presizes a 16-slot table, each key lands
at slot `hash(key) & 15` (with the standard perturbed probe on collision,
insertion in declaration order), and iteration scans slots in increasing
order. Occupied slots: 1, 3, 5, 7, 8, 10, 14, 15. -/
def DIRECTORY_MAP : List (PyStr × PyStr) :=
  [("/vsaq/static/questionnaire/".data, "vsaq/static/questionnaire/".data),
   ("/javascript/closure/".data, "third_party/closure-library/closure/goog/".data),
   ("/vsaq/".data, "vsaq/".data),
   ("/third_party/closure-templates-compiler/".data,
      "third_party/closure-templates-compiler/".data),
   ("/javascript/vsaq/".data, "vsaq/".data),
   ("/build/templates/vsaq/static/questionnaire/".data,
      "build/templates/vsaq/static/questionnaire/".data),
   ("/".data, "build/".data),
   ("/third_party/closure/".data,
      "third_party/closure-library/third_party/closure/".data)]

/-- The same eight pairs in the order in which the source text declares them
(lines 41..54) — the order the specification calls the fixed declared
order. -/
def DIRECTORY_MAP_declared : List (PyStr × PyStr) :=
  [("/".data, "build/".data),
   ("/vsaq/".data, "vsaq/".data),
   ("/vsaq/static/questionnaire/".data, "vsaq/static/questionnaire/".data),
   ("/javascript/closure/".data, "third_party/closure-library/closure/goog/".data),
   ("/javascript/vsaq/".data, "vsaq/".data),
   ("/third_party/closure/".data,
      "third_party/closure-library/third_party/closure/".data),
   ("/third_party/closure-templates-compiler/".data,
      "third_party/closure-templates-compiler/".data),
   ("/build/templates/vsaq/static/questionnaire/".data,
      "build/templates/vsaq/static/questionnaire/".data)]

/-- Test of one directory-mapping entry (lines 108..109): the stripped path
starts with the entry key and `dest_dir + path[len(prefix):]` is an existing
regular file. -/
def mapsTo (fs : FS) (path : PyStr) (e : PyStr × PyStr) : Bool :=
  pyStartswith path e.1 && os_isfile fs (e.2 ++ path.drop e.1.length)

/-- The candidate `dest_dir + path[len(prefix):]` of one entry (line 110). -/
def mapCandidate (path : PyStr) (e : PyStr × PyStr) : PyStr :=
  e.2 ++ path.drop e.1.length

/-- The `for prefix, dest_dir in DIRECTORY_MAP.items()` loop of
`translate_path` (lines 106..111): the first entry that maps the path to an
existing regular file wins; otherwise fall back to `build/index.html`. -/
def dirMapScan (fs : FS) (path : PyStr) : List (PyStr × PyStr) → PyStr
  | [] => "build/index.html".data
  | e :: rest => if mapsTo fs path e then mapCandidate path e else dirMapScan fs path rest

/-- Body of `translate_path` after the query string has been removed
(lines 101..111). -/
def translate_path_stripped (fs : FS) (path : PyStr) : FS × PyStr :=
  if pyEndswith path "deps-runfiles.js".data then (fs, DEPS_FILE)
  else if path = "/".data ++ ALL_JSTESTS_FILE then
    (generate_all_tests_file fs, ALL_JSTESTS_FILE)
  else (fs, dirMapScan fs path DIRECTORY_MAP)

/-- `TestServerRequestHandler.translate_path` (lines 96..111), with the
filesystem it may change (lazy manifest generation) returned alongside the
translated path. -/
def translate_path (fs : FS) (path : PyStr) : FS × PyStr :=
  translate_path_stripped fs (reSubQuery path)

/-- Python `str.replace` with a one-character needle. -/
def strReplace (s : PyStr) (old : Char) (new : PyStr) : PyStr :=
  s.flatMap (fun c => if c = old then new else [c])

/-- `cgi.escape(s)` with `quote=False` (Python 2 stdlib `cgi.py`): replace
`&` by `&amp;`, then `<` by `&lt;`, then `>` by `&gt;`. -/
def cgi_escape (s : PyStr) : PyStr :=
  strReplace (strReplace (strReplace s '&' "&amp;".data) '<' "&lt;".data) '>' "&gt;".data

/-- One `<li>` line of the test index page (line 85):
`"<li><a href=\"/%s\">%s</a>\n" % (f, cgi.escape(f))`. -/
def testListItem (f : PyStr) : PyStr :=
  "<li><a href=\"/".data ++ f ++ "\">".data ++ cgi_escape f ++ "</a>\n".data

/-- An HTTP response as assembled by the handler: status code, headers in
order, body bytes. -/
structure HttpResponse where
  status : Nat
  headers : List (PyStr × PyStr)
  body : PyStr
deriving DecidableEq

/-- `TestServerRequestHandler.show_tests` (lines 71..87): status 200, one
`Content-type: text/html` header, then the fixed blurb and one list item per
discovered test file, in walk order. -/
def show_tests (fs : FS) : HttpResponse :=
  { status := 200
    headers := [("Content-type".data, "text/html".data)]
    body :=
      "<h2>VSAQ test server</h2>".data ++ "<h3>Test suite</h3>".data
        ++ "<a href=\"/all_tests.html\">all_tests.html</a>\n".data
        ++ "<h3>Individual tests</h3>".data ++ "<ul>".data
        ++ (get_test_files fs).flatMap testListItem ++ "</ul>".data }

/-- Outcome of one `do_GET`: either the rendered test index page, or
delegation to the `SimpleHTTPServer` static pipeline, which serves the file
that `translate_path` names (carrying the possibly changed filesystem). -/
inductive GetResult where
  | page : HttpResponse → GetResult
  | staticFile : FS × PyStr → GetResult

/-- `TestServerRequestHandler.do_GET` (lines 89..94). -/
def do_GET (fs : FS) (path : PyStr) : GetResult :=
  if path = "/tests.html".data || path = "/tests.html/".data then .page (show_tests fs)
  else .staticFile (translate_path fs path)

/-- `c.isdigit()` range used by `int`: the bytes 48..57. -/
def pyIsDigit (c : Char) : Bool := 48 ≤ c.toNat && c.toNat ≤ 57

/-- Decimal value of a nonempty all-digit string, else `none`. -/
def digitsVal (l : PyStr) : Option Nat :=
  if l.isEmpty || !(l.all pyIsDigit) then none
  else some (l.foldl (fun a c => 10 * a + (c.toNat - 48)) 0)

/-- Python whitespace stripped by `int` around the literal. -/
def pyIsSpace (c : Char) : Bool :=
  c = ' ' || c = '\t' || c = '\n' || c = '\r' || c = Char.ofNat 11 || c = Char.ofNat 12

/-- Python 2 `int(s)` on a base-10 string: optional surrounding whitespace,
an optional sign, then a nonempty run of decimal digits; anything else
raises `ValueError` (`none`). -/
def pyInt (s : PyStr) : Option Int :=
  match ((s.dropWhile pyIsSpace).reverse.dropWhile pyIsSpace).reverse with
  | '+' :: ds => (digitsVal ds).map (fun n => (n : Int))
  | '-' :: ds => (digitsVal ds).map (fun n => -(n : Int))
  | ds => (digitsVal ds).map (fun n => (n : Int))

/-- What happens before `serve_forever`: `int(sys.argv[1])` may raise
`ValueError` (a parse error, line 29), otherwise
`BaseHTTPServer.HTTPServer(("127.0.0.1", PORT), ...)` (line 114) binds the
listening socket, and the socket layer rejects ports outside 0..65535 with
`OverflowError` at bind time. -/
inductive StartupOutcome where
  | parseError : StartupOutcome
  | bindError : Int → StartupOutcome
  | running : Int → StartupOutcome
deriving DecidableEq

/-- Port range enforced by the socket layer when binding. -/
def socketPortOk (p : Int) : Bool := 0 ≤ p && p ≤ 65535

/-- Lines 27..31 and 114: port 9000 by default, overridden by `sys.argv[1]`
when present (further arguments are ignored); then the bind. -/
def server_startup (argv : List PyStr) : StartupOutcome :=
  match argv[1]? with
  | none => if socketPortOk 9000 then .running 9000 else .bindError 9000
  | some a =>
    match pyInt a with
    | none => .parseError
    | some p => if socketPortOk p then .running p else .bindError p

/-- Step 3 of the specification of the Path Resolver, taken at its word:
iterate the Directory Mapping in its fixed DECLARED order and return the
first candidate that is an existing regular file (with the same fallback
when nothing matches). Used to compare the specified order against the
order the program actually iterates. -/
def resolveDeclaredOrder (fs : FS) (path : PyStr) : PyStr :=
  dirMapScan fs (reSubQuery path) DIRECTORY_MAP_declared

theorem dirMapScan_all_miss (fs : FS) (p : PyStr) :
    ∀ l : List (PyStr × PyStr), (∀ e ∈ l, mapsTo fs p e = false) →
      dirMapScan fs p l = "build/index.html".data := by
  intro l
  induction l with
  | nil => intro _; rfl
  | cons e rest ih =>
    intro h
    have he := h e (List.mem_cons_self e rest)
    simp only [dirMapScan, he, Bool.false_eq_true, if_false]
    exact ih (fun x hx => h x (List.mem_cons_of_mem e hx))

/-- C3: for every request path whose query-stripped form ends with
`deps-runfiles.js`, `translate_path` returns the fixed dependency-manifest
path `build/deps-runfiles.js`, unconditionally, before any directory-mapping
lookup and with no filesystem effect. -/
theorem translate_path_deps_override (fs : FS) (path : PyStr)
    (h : pyEndswith (reSubQuery path) "deps-runfiles.js".data = true) :
    translate_path fs path = (fs, DEPS_FILE) := by
  simp [translate_path, translate_path_stripped, h]

/-- Witness: the deps-runfiles override at a concrete input. -/
theorem translate_path_deps_override_witness :
    pyEndswith (reSubQuery "/a/b/deps-runfiles.js?x=1".data) "deps-runfiles.js".data = true ∧
    translate_path ⟨[], [], .node [] []⟩ "/a/b/deps-runfiles.js?x=1".data =
      (⟨[], [], .node [] []⟩, DEPS_FILE) :=
  ⟨by decide, translate_path_deps_override _ _ (by decide)⟩

/-- C5: when the stripped path triggers neither the deps-runfiles override
nor the manifest route and no directory-mapping entry yields an existing
regular file, `translate_path` returns the fallback `build/index.html`,
raises no error, and leaves the filesystem unchanged. -/
theorem translate_path_fallback (fs : FS) (path : PyStr)
    (h1 : pyEndswith (reSubQuery path) "deps-runfiles.js".data = false)
    (h2 : reSubQuery path ≠ "/".data ++ ALL_JSTESTS_FILE)
    (h3 : ∀ e ∈ DIRECTORY_MAP, mapsTo fs (reSubQuery path) e = false) :
    translate_path fs path = (fs, "build/index.html".data) := by
  have h2n : reSubQuery path ≠ '/' :: ALL_JSTESTS_FILE := by simpa using h2
  simp [translate_path, translate_path_stripped, h1, h2n, dirMapScan_all_miss fs _ _ h3]

/-- Witness: the fallback at a concrete unresolved path. -/
theorem translate_path_fallback_witness :
    (∀ e ∈ DIRECTORY_MAP, mapsTo ⟨[], [], .node [] []⟩ (reSubQuery "/nope".data) e = false) ∧
    translate_path ⟨[], [], .node [] []⟩ "/nope".data =
      (⟨[], [], .node [] []⟩, "build/index.html".data) :=
  ⟨by decide, translate_path_fallback _ _ (by decide) (by decide) (by decide)⟩

/-- C8: `GET /tests.html` and `GET /tests.html/` both dispatch to the test
index renderer and produce the identical response (status, headers and body),
for every filesystem state. -/
theorem do_GET_tests_aliases (fs : FS) :
    do_GET fs "/tests.html".data = GetResult.page (show_tests fs) ∧
    do_GET fs "/tests.html/".data = GetResult.page (show_tests fs) ∧
    do_GET fs "/tests.html".data = do_GET fs "/tests.html/".data :=
  ⟨rfl, rfl, rfl⟩

/-- C2: when the manifest artifact already exists on disk,
`generate_all_tests_file` performs no write and changes nothing — for every
filesystem state, in particular whatever tree the test assets now form — so
the artifact keeps its previously generated content; when it does not yet
exist, the call creates it with the freshly computed content. -/
theorem generate_all_tests_file_idempotent (fs : FS) :
    (os_exists fs ALL_JSTESTS_FILE = true →
      generate_all_tests_file fs = fs ∧
      ∀ t, generate_all_tests_file { fs with tree := t } = { fs with tree := t } ∧
        fsRead { fs with tree := t } ALL_JSTESTS_FILE = fsRead fs ALL_JSTESTS_FILE) ∧
    (os_exists fs ALL_JSTESTS_FILE = false →
      os_isfile (generate_all_tests_file fs) ALL_JSTESTS_FILE = true ∧
      fsRead (generate_all_tests_file fs) ALL_JSTESTS_FILE = some (manifestContent fs)) := by
  constructor
  · intro h
    have ht : ∀ t : WalkTree, os_exists { fs with tree := t } ALL_JSTESTS_FILE = true :=
      fun _ => h
    exact ⟨by simp [generate_all_tests_file, h],
      fun t => ⟨by simp [generate_all_tests_file, ht t], rfl⟩⟩
  · intro h
    simp [generate_all_tests_file, h, fsWrite, os_isfile, fsRead, List.lookup]

/-- Witness: the no-op branch at a state that holds the artifact, and the
creating branch at a state that does not. -/
theorem generate_all_tests_file_idempotent_witness :
    (os_exists ⟨[(ALL_JSTESTS_FILE, "old".data)], [], .node [] []⟩ ALL_JSTESTS_FILE = true ∧
      generate_all_tests_file ⟨[(ALL_JSTESTS_FILE, "old".data)], [], .node [] []⟩ =
        ⟨[(ALL_JSTESTS_FILE, "old".data)], [], .node [] []⟩) ∧
    (os_exists ⟨[], [], .node [] []⟩ ALL_JSTESTS_FILE = false ∧
      fsRead (generate_all_tests_file ⟨[], [], .node [] []⟩) ALL_JSTESTS_FILE =
        some (manifestContent ⟨[], [], .node [] []⟩)) :=
  ⟨⟨by decide, ((generate_all_tests_file_idempotent _).1 (by decide)).1⟩,
   ⟨by decide, ((generate_all_tests_file_idempotent _).2 (by decide)).2⟩⟩

/-- C9 (amended): with no argument the server runs on port 9000; a malformed
argument makes `int(sys.argv[1])` raise a parse error before the bind; a
numeric argument outside 0..65535 parses fine and the process fails later,
when the socket is bound; an in-range numeric argument runs on that port. -/
theorem server_startup_port_behaviour (argv : List PyStr) :
    (argv[1]? = none → server_startup argv = .running 9000) ∧
    (∀ a, argv[1]? = some a → pyInt a = none → server_startup argv = .parseError) ∧
    (∀ a p, argv[1]? = some a → pyInt a = some p → socketPortOk p = false →
      server_startup argv = .bindError p) ∧
    (∀ a p, argv[1]? = some a → pyInt a = some p → socketPortOk p = true →
      server_startup argv = .running p) := by
  refine ⟨?_, ?_, ?_, ?_⟩
  · intro h; simp [server_startup, h, socketPortOk]
  · intro a h hp; simp [server_startup, h, hp]
  · intro a p h hp hok; simp [server_startup, h, hp, hok]
  · intro a p h hp hok; simp [server_startup, h, hp, hok]

/-- C9 counterexample: the out-of-range port 70000 parses successfully, so
startup does not fail with a parse error; it reaches the socket bind and
fails there. -/
theorem server_startup_out_of_range_not_parse_error :
    server_startup ["vsaq_server.py".data, "70000".data] = .bindError 70000 ∧
    server_startup ["vsaq_server.py".data, "70000".data] ≠ .parseError := by
  exact ⟨by decide, by decide⟩

/-- Witness: each branch of the amended startup behaviour at a concrete
argument vector. -/
theorem server_startup_port_behaviour_witness :
    server_startup ["vsaq_server.py".data] = .running 9000 ∧
    server_startup ["vsaq_server.py".data, "80a".data] = .parseError ∧
    server_startup ["vsaq_server.py".data, "65536".data] = .bindError 65536 ∧
    server_startup ["vsaq_server.py".data, "8080".data] = .running 8080 :=
  ⟨(server_startup_port_behaviour _).1 rfl,
   (server_startup_port_behaviour _).2.1 _ rfl (by decide),
   (server_startup_port_behaviour _).2.2.1 _ _ rfl (by decide) (by decide),
   (server_startup_port_behaviour _).2.2.2 _ _ rfl (by decide) (by decide)⟩

theorem dirMapScan_first_hit (fs : FS) (p : PyStr) :
    ∀ (l : List (PyStr × PyStr)) (i : Nat) (hi : i < l.length),
      mapsTo fs p (l.get ⟨i, hi⟩) = true →
      (∀ j (hj : j < i), mapsTo fs p (l.get ⟨j, hj.trans hi⟩) = false) →
      dirMapScan fs p l = mapCandidate p (l.get ⟨i, hi⟩) := by
  intro l
  induction l with
  | nil => intro i hi; simp at hi
  | cons e rest ih =>
    intro i hi hhit hmiss
    cases i with
    | zero =>
      simp only [List.get] at hhit
      simp [dirMapScan, hhit]
    | succ i =>
      have h0 : mapsTo fs p e = false := hmiss 0 (Nat.succ_pos i)
      simp only [dirMapScan, h0, Bool.false_eq_true, if_false]
      exact ih i (Nat.lt_of_succ_lt_succ hi) hhit
        (fun j hj => hmiss (j + 1) (Nat.succ_lt_succ hj))

/-- C1 (amended): outside the two special cases, `translate_path` consults
the Directory Mapping as the fixed, stable sequence `DIRECTORY_MAP` — the
CPython 2.7 dict iteration order of the literal, not its declared order —
and the FIRST entry in that order whose key is a prefix of the stripped path
and whose candidate file exists wins. -/
theorem translate_path_first_match (fs : FS) (path : PyStr) (i : Nat)
    (hi : i < DIRECTORY_MAP.length)
    (h1 : pyEndswith (reSubQuery path) "deps-runfiles.js".data = false)
    (h2 : reSubQuery path ≠ "/".data ++ ALL_JSTESTS_FILE)
    (hhit : mapsTo fs (reSubQuery path) (DIRECTORY_MAP.get ⟨i, hi⟩) = true)
    (hmiss : ∀ j (hj : j < i),
      mapsTo fs (reSubQuery path) (DIRECTORY_MAP.get ⟨j, hj.trans hi⟩) = false) :
    translate_path fs path =
      (fs, mapCandidate (reSubQuery path) (DIRECTORY_MAP.get ⟨i, hi⟩)) := by
  have h2n : reSubQuery path ≠ '/' :: ALL_JSTESTS_FILE := by simpa using h2
  simp [translate_path, translate_path_stripped, h1, h2n,
    dirMapScan_first_hit fs _ DIRECTORY_MAP i hi hhit hmiss]

/-- C1 counterexample: with both candidate files present, the request
`/vsaq/x.js` resolves through the `/vsaq/` entry (the order the program
iterates) to `vsaq/x.js`, while the first matching entry in DECLARED order
is `/` (declared first) whose candidate `build/vsaq/x.js` also exists — the
earlier declared entry does not win. -/
theorem translate_path_not_declared_order :
    (translate_path ⟨[("build/vsaq/x.js".data, []), ("vsaq/x.js".data, [])], [], .node [] []⟩
        "/vsaq/x.js".data).2 = "vsaq/x.js".data ∧
    resolveDeclaredOrder ⟨[("build/vsaq/x.js".data, []), ("vsaq/x.js".data, [])], [],
        .node [] []⟩ "/vsaq/x.js".data = "build/vsaq/x.js".data ∧
    ("vsaq/x.js".data : PyStr) ≠ "build/vsaq/x.js".data :=
  ⟨by decide, by decide, by decide⟩

/-- Witness: the first-match rule at a concrete input hitting entry 2
(`/vsaq/`), the two earlier entries missing. -/
theorem translate_path_first_match_witness :
    mapsTo ⟨[("vsaq/y.js".data, [])], [], .node [] []⟩ (reSubQuery "/vsaq/y.js".data)
      (DIRECTORY_MAP.get ⟨2, by decide⟩) = true ∧
    translate_path ⟨[("vsaq/y.js".data, [])], [], .node [] []⟩ "/vsaq/y.js".data =
      (⟨[("vsaq/y.js".data, [])], [], .node [] []⟩,
        mapCandidate (reSubQuery "/vsaq/y.js".data) (DIRECTORY_MAP.get ⟨2, by decide⟩)) :=
  ⟨by decide, translate_path_first_match _ _ 2 (by decide) (by decide) (by decide)
    (by decide) (by decide)⟩

theorem reSubQuery_no_query (l : PyStr) (h : '?' ∉ l) : reSubQuery l = l := by
  induction l with
  | nil => rfl
  | cons c rest ih =>
    have hc : c ≠ '?' := fun he => h (he ▸ List.mem_cons_self c rest)
    have hrest : '?' ∉ rest := fun hm => h (List.mem_cons_of_mem c hm)
    simp [reSubQuery, hc, ih hrest]

theorem reSubQuery_no_newline (l : PyStr) (h : '\n' ∉ l) :
    reSubQuery l = l.takeWhile (fun c => c != '?') := by
  induction l with
  | nil => rfl
  | cons c rest ih =>
    have hrest : '\n' ∉ rest := fun hm => h (List.mem_cons_of_mem c hm)
    by_cases hc : c = '?'
    · subst hc
      have hd : rest.dropWhile (fun c => c != '\n') = [] := by
        rw [List.dropWhile_eq_nil_iff]
        intro x hx
        have hxn : x ≠ '\n' := fun he => hrest (he ▸ hx)
        simpa using hxn
      simp [reSubQuery, qTailMatch, hd, List.takeWhile_cons]
    · simp [reSubQuery, hc, ih hrest, List.takeWhile_cons]

/-- C4: on query-bearing request paths (an HTTP request path can carry no
raw newline, the request line being newline-terminated and whitespace-split),
resolving the path gives exactly the same result as resolving the path with
the `?` and everything after it removed. -/
theorem translate_path_query_insensitive (fs : FS) (path : PyStr)
    (hq : '?' ∈ path) (hn : '\n' ∉ path) :
    translate_path fs path = translate_path fs (path.takeWhile (fun c => c != '?')) := by
  have h1 : reSubQuery path = path.takeWhile (fun c => c != '?') :=
    reSubQuery_no_newline path hn
  have h2 : reSubQuery (path.takeWhile (fun c => c != '?')) =
      path.takeWhile (fun c => c != '?') := by
    apply reSubQuery_no_query
    intro hm
    have hp := List.mem_takeWhile_imp hm
    simp at hp
  unfold translate_path
  rw [h1, h2]

/-- Witness: query insensitivity at a concrete query-bearing path. -/
theorem translate_path_query_insensitive_witness :
    ('?' ∈ ("/vsaq/w.js?v=2".data : PyStr)) ∧
    translate_path ⟨[("vsaq/w.js".data, [])], [], .node [] []⟩ "/vsaq/w.js?v=2".data =
      translate_path ⟨[("vsaq/w.js".data, [])], [], .node [] []⟩
        (("/vsaq/w.js?v=2".data : PyStr).takeWhile (fun c => c != '?')) :=
  ⟨by decide, translate_path_query_insensitive _ _ (by decide) (by decide)⟩

/-- The per-character view of `cgi.escape`: what the three chained replaces
do to each input character. -/
def escapeChar (c : Char) : PyStr :=
  if c = '&' then "&amp;".data
  else if c = '<' then "&lt;".data
  else if c = '>' then "&gt;".data
  else [c]

theorem strReplace_append (a b : PyStr) (o : Char) (n : PyStr) :
    strReplace (a ++ b) o n = strReplace a o n ++ strReplace b o n := by
  simp [strReplace]

theorem cgi_escape_eq_flatMap (s : PyStr) : cgi_escape s = s.flatMap escapeChar := by
  induction s with
  | nil => rfl
  | cons c rest ih =>
    have hstep : cgi_escape (c :: rest) =
        strReplace (strReplace (strReplace [c] '&' "&amp;".data) '<' "&lt;".data)
            '>' "&gt;".data ++ cgi_escape rest := by
      unfold cgi_escape
      rw [show (c :: rest) = [c] ++ rest from rfl]
      rw [strReplace_append, strReplace_append, strReplace_append]
    rw [hstep, ih, List.flatMap_cons]
    congr 1
    by_cases h1 : c = '&'
    · subst h1; rfl
    · by_cases h2 : c = '<'
      · subst h2; rfl
      · by_cases h3 : c = '>'
        · subst h3; rfl
        · simp [strReplace, escapeChar, h1, h2, h3]

/-- True when the text right after an ampersand begins one of the three
entities the escaper produces. -/
def escapedEntityAt (l : PyStr) : Bool :=
  "amp;".data.isPrefixOf l || "lt;".data.isPrefixOf l || "gt;".data.isPrefixOf l

/-- No raw `<` or `>` anywhere, and every `&` starts an escaped entity. -/
def noUnescapedMarkup : PyStr → Bool
  | [] => true
  | c :: rest =>
    if c = '<' ∨ c = '>' then false
    else if c = '&' then escapedEntityAt rest && noUnescapedMarkup rest
    else noUnescapedMarkup rest

theorem noUnescapedMarkup_escape (s : PyStr) :
    noUnescapedMarkup (s.flatMap escapeChar) = true := by
  induction s with
  | nil => rfl
  | cons c rest ih =>
    rw [List.flatMap_cons]
    by_cases h1 : c = '&'
    · subst h1
      simp [escapeChar, noUnescapedMarkup, escapedEntityAt, List.isPrefixOf, ih]
    · by_cases h2 : c = '<'
      · subst h2
        simp [escapeChar, noUnescapedMarkup, escapedEntityAt, List.isPrefixOf, ih]
      · by_cases h3 : c = '>'
        · subst h3
          simp [escapeChar, noUnescapedMarkup, escapedEntityAt, List.isPrefixOf, ih]
        · simp [escapeChar, noUnescapedMarkup, h1, h2, h3, ih]

/-- Markup characters the test index page must escape. -/
def containsMarkupChar (s : PyStr) : Bool :=
  s.contains '&' || s.contains '<' || s.contains '>'

/-- C6: for every discovered test file whose path holds `<`, `>` or `&`, the
anchor link text `cgi.escape(f)` that `show_tests` emits for it holds no
unescaped occurrence of those markup characters. -/
theorem show_tests_link_text_escaped (fs : FS) (f : PyStr)
    (hf : f ∈ get_test_files fs) (hm : containsMarkupChar f = true) :
    noUnescapedMarkup (cgi_escape f) = true := by
  rw [cgi_escape_eq_flatMap]
  exact noUnescapedMarkup_escape f

/-- Witness: a discovered test file whose name holds an ampersand. -/
theorem show_tests_link_text_escaped_witness :
    ("vsaq/a&btest_dom.html".data ∈
      get_test_files ⟨[], [], .node ["a&btest_dom.html".data] []⟩) ∧
    containsMarkupChar "vsaq/a&btest_dom.html".data = true ∧
    noUnescapedMarkup (cgi_escape "vsaq/a&btest_dom.html".data) = true :=
  ⟨by decide, by decide,
    show_tests_link_text_escaped ⟨[], [], .node ["a&btest_dom.html".data] []⟩ _
      (by decide) (by decide)⟩

theorem hexDigitChar_ne_newline : ∀ n < 16, hexDigitChar n ≠ '\n' := by decide

theorem pyReprChar_ne_newline (q c : Char) (hq : q ≠ '\n') :
    '\n' ∉ pyReprChar q c := by
  have hback : ('\n' : Char) ≠ backslashChar := by decide
  unfold pyReprChar
  split
  · rename_i h
    simp only [Bool.or_eq_true, decide_eq_true_eq] at h
    intro hm
    simp only [List.mem_cons, List.not_mem_nil, or_false] at hm
    rcases hm with hm | hm
    · exact hback hm
    · rcases h with h | h
      · exact hq (hm.trans h).symm
      · exact hback (hm.trans h)
  · split
    · intro hm; exact absurd hm (by decide)
    · split
      · intro hm; exact absurd hm (by decide)
      · split
        · intro hm; exact absurd hm (by decide)
        · split
          · intro hm
            simp only [List.mem_cons, List.not_mem_nil, or_false] at hm
            rcases hm with hm | hm | hm | hm
            · exact hback hm
            · exact absurd hm (by decide)
            · exact hexDigitChar_ne_newline _ (Nat.mod_lt _ (by norm_num)) hm.symm
            · exact hexDigitChar_ne_newline _ (Nat.mod_lt _ (by norm_num)) hm.symm
          · rename_i h1 h2 h3 h4 h5
            simp only [Bool.or_eq_true, decide_eq_true_eq, not_or, not_lt, not_le] at h5
            intro hm
            simp only [List.mem_cons, List.not_mem_nil, or_false] at hm
            have h10 : c.toNat = 10 := by rw [← hm]; rfl
            omega

theorem pyReprQuote_ne_newline (s : PyStr) : pyReprQuote s ≠ '\n' := by
  unfold pyReprQuote
  split <;> decide

theorem pyReprStr_no_newline (s : PyStr) : '\n' ∉ pyReprStr s := by
  unfold pyReprStr
  intro hm
  rcases List.mem_append.mp hm with hm1 | hm1
  · rcases List.mem_cons.mp hm1 with hm2 | hm2
    · exact pyReprQuote_ne_newline s hm2.symm
    · rcases List.mem_flatMap.mp hm2 with ⟨c, _, hc⟩
      exact pyReprChar_ne_newline (pyReprQuote s) c (pyReprQuote_ne_newline s) hc
  · exact pyReprQuote_ne_newline s ((List.mem_singleton.mp hm1)).symm

theorem mem_intercalate_elim {x : Char} (sep : PyStr) :
    ∀ ls : List PyStr, x ∈ List.intercalate sep ls → x ∈ sep ∨ ∃ a ∈ ls, x ∈ a := by
  intro ls
  induction ls with
  | nil => intro h; simp [List.intercalate] at h
  | cons a rest ih =>
    cases rest with
    | nil =>
      intro h
      simp only [List.intercalate, List.intersperse_singleton, List.flatten] at h
      exact Or.inr ⟨a, List.mem_cons_self a [], by simpa using h⟩
    | cons b rest2 =>
      intro h
      have hsplit : List.intercalate sep (a :: b :: rest2)
          = a ++ sep ++ List.intercalate sep (b :: rest2) := by
        simp [List.intercalate, List.intersperse_cons_cons, List.flatten_cons,
          List.append_assoc]
      rw [hsplit] at h
      rcases List.mem_append.mp h with h1 | h1
      · rcases List.mem_append.mp h1 with h2 | h2
        · exact Or.inr ⟨a, List.mem_cons_self a _, h2⟩
        · exact Or.inl h2
      · rcases ih h1 with h2 | ⟨c, hc, hx⟩
        · exact Or.inl h2
        · exact Or.inr ⟨c, List.mem_cons_of_mem a hc, hx⟩

theorem pyReprStrList_no_newline (l : List PyStr) : '\n' ∉ pyReprStrList l := by
  unfold pyReprStrList
  intro hm
  rcases List.mem_append.mp hm with hm1 | hm1
  · rcases List.mem_cons.mp hm1 with hm2 | hm2
    · exact absurd hm2 (by decide)
    · rcases mem_intercalate_elim _ _ hm2 with hs | ⟨a, ha, hx⟩
      · exact absurd hs (by decide)
      · rcases List.mem_map.mp ha with ⟨s, _, rfl⟩
        exact pyReprStr_no_newline s hx
  · exact absurd (List.mem_singleton.mp hm1) (by decide)

/-- C7: when the manifest artifact does not yet exist, the generator writes
to `build/all_tests.js` exactly the assignment of the Python repr of the
collected test-file list to the global `_allTests`, terminated by a
semicolon and free of newline bytes (a single line); the collected list is
exactly the `*test_dom.html` matches of the recursive walk of `vsaq/`, in
unsorted root-walk order. -/
theorem generate_all_tests_file_creates (fs : FS)
    (h : os_exists fs ALL_JSTESTS_FILE = false) :
    generate_all_tests_file fs = fsWrite fs ALL_JSTESTS_FILE (manifestContent fs) ∧
    manifestContent fs =
      "var _allTests=".data ++ pyReprStrList (get_test_files fs) ++ ";".data ∧
    get_test_files fs =
      (os_walk "vsaq/".data fs.tree).flatMap
        (fun rf => (rf.2.filter fnmatchTestDom).map (os_path_join rf.1)) ∧
    '\n' ∉ manifestContent fs := by
  refine ⟨by simp [generate_all_tests_file, h], rfl, rfl, ?_⟩
  unfold manifestContent
  intro hm
  rcases List.mem_append.mp hm with hm1 | hm1
  · rcases List.mem_append.mp hm1 with hm2 | hm2
    · exact absurd hm2 (by decide)
    · exact pyReprStrList_no_newline _ hm2
  · exact absurd hm1 (by decide)

/-- Witness: generation at a concrete state holding one test file. -/
theorem generate_all_tests_file_creates_witness :
    os_exists ⟨[], [], .node [("atest_dom.html".data)] []⟩ ALL_JSTESTS_FILE = false ∧
    generate_all_tests_file ⟨[], [], .node [("atest_dom.html".data)] []⟩ =
      fsWrite ⟨[], [], .node [("atest_dom.html".data)] []⟩ ALL_JSTESTS_FILE
        (manifestContent ⟨[], [], .node [("atest_dom.html".data)] []⟩) ∧
    manifestContent ⟨[], [], .node [("atest_dom.html".data)] []⟩ =
      "var _allTests=[".data
        ++ (squoteChar :: "vsaq/atest_dom.html".data) ++ (squoteChar :: "];".data) :=
  ⟨by decide, (generate_all_tests_file_creates _ (by decide)).1, by decide⟩

theorem flatMap_escapeChar_id (g : PyStr)
    (hg : ∀ c ∈ g, c ≠ '&' ∧ c ≠ '<' ∧ c ≠ '>') : g.flatMap escapeChar = g := by
  induction g with
  | nil => rfl
  | cons c rest ih =>
    rcases hg c (List.mem_cons_self c rest) with ⟨h1, h2, h3⟩
    rw [List.flatMap_cons, ih (fun x hx => hg x (List.mem_cons_of_mem c hx))]
    simp [escapeChar, h1, h2, h3]

/-- C10: every discovered test file `f` contributes to the index page body,
verbatim, the list item `<li><a href="/` ++ f ++ `">` ++ escape(f) ++
`</a>` ++ newline, where the escape maps only `&`, `<` and `>` (every other
byte — the double quote included — passes through unchanged); in particular
the href attribute value embeds `f` itself with no escaping at all. -/
theorem show_tests_list_item_shape (fs : FS) (f : PyStr)
    (hf : f ∈ get_test_files fs) :
    (∃ pre post, (show_tests fs).body = pre ++ testListItem f ++ post) ∧
    testListItem f =
      "<li><a href=\"/".data ++ f ++ "\">".data
        ++ f.flatMap escapeChar ++ "</a>\n".data ∧
    (∀ g : PyStr, (∀ c ∈ g, c ≠ '&' ∧ c ≠ '<' ∧ c ≠ '>') → cgi_escape g = g) := by
  refine ⟨?_, ?_, ?_⟩
  · rcases List.append_of_mem hf with ⟨l1, l2, hsplit⟩
    refine ⟨"<h2>VSAQ test server</h2>".data ++ "<h3>Test suite</h3>".data
      ++ "<a href=\"/all_tests.html\">all_tests.html</a>\n".data
      ++ "<h3>Individual tests</h3>".data ++ "<ul>".data ++ l1.flatMap testListItem,
      l2.flatMap testListItem ++ "</ul>".data, ?_⟩
    simp [show_tests, hsplit, List.flatMap_append, List.flatMap_cons, List.append_assoc]
  · rw [testListItem, cgi_escape_eq_flatMap]
  · intro g hg
    rw [cgi_escape_eq_flatMap, flatMap_escapeChar_id g hg]

/-- Witness: a discovered test file whose name holds a double quote; its
item appears in the body and the href embeds the quote unescaped. -/
theorem show_tests_list_item_shape_witness :
    (("vsaq/q\"test_dom.html".data : PyStr) ∈
      get_test_files ⟨[], [], .node [("q\"test_dom.html".data)] []⟩) ∧
    (∃ pre post, (show_tests ⟨[], [], .node [("q\"test_dom.html".data)] []⟩).body
      = pre ++ testListItem ("vsaq/q\"test_dom.html".data) ++ post) ∧
    testListItem ("vsaq/q\"test_dom.html".data) =
      "<li><a href=\"/".data ++ "vsaq/q\"test_dom.html".data ++ "\">".data
        ++ ("vsaq/q\"test_dom.html".data : PyStr).flatMap escapeChar ++ "</a>\n".data :=
  ⟨by decide,
    (show_tests_list_item_shape ⟨[], [], .node [("q\"test_dom.html".data)] []⟩
      ("vsaq/q\"test_dom.html".data) (by decide)).1,
    (show_tests_list_item_shape ⟨[], [], .node [("q\"test_dom.html".data)] []⟩
      ("vsaq/q\"test_dom.html".data) (by decide)).2.1⟩
